import Mathlib

/-!
Shallow embedding of the farm-ai backend (src/main.py): a FastAPI service with
two endpoints, the local fixture pipeline (process_local_images) and the
Supabase-backed pipeline (generate_map).  External effects (Supabase storage,
the MATLAB subprocess, the filesystem) are modelled by an explicit environment
of outcomes and an explicit filesystem state (the list of existing paths);
each pipeline returns its HTTP response, the final filesystem, and the trace
of external calls it made, in order.
-/

namespace FarmAI

/-- A filesystem state: the list of currently existing paths (files and
directories alike). -/
abbrev FS := List String

/-- os.path.exists. -/
def pathExists (fs : FS) (p : String) : Bool := decide (p ∈ fs)

/-- os.path.join, at the call sites of this program: every second component is
a relative name, so join is concatenation with the separator. -/
def joinPath (a b : String) : String := a ++ "/" ++ b

/-- Whether a path is absolute, i.e. begins with the separator (code 47). -/
def isAbs (p : String) : Bool := p.data.head? == some (Char.ofNat 47)

/-- os.path.abspath: an absolute path is returned unchanged, a relative one is
resolved against the working directory.  No call site passes dot segments, so
no normalisation arises. -/
def absPath (cwd p : String) : String := if isAbs p then p else joinPath cwd p

/-- os.makedirs(d, exist_ok=True): create the directory if absent. -/
def makedirs (fs : FS) (d : String) : FS := if pathExists fs d then fs else d :: fs

/-- shutil.rmtree: removes the directory and every path below it. -/
def rmtree (fs : FS) (d : String) : FS :=
  fs.filter (fun p => !(p == d || (d ++ "/").data.isPrefixOf p.data))

/-- Step E of generate_map (the finally block): if os.path.exists(temp_dir)
then shutil.rmtree(temp_dir). -/
def cleanup (fs : FS) (d : String) : FS := if pathExists fs d then rmtree fs d else fs

/-- Captured result of subprocess.run(..., capture_output=True, text=True). -/
structure ProcResult where
  returncode : Int
  stdout : String
  stderr : String
deriving DecidableEq, Repr

/-- One external call made by a pipeline. -/
inductive Event where
  | download (bucket objectPath destFile : String)
  | run (cwd cmd : String) (captured : ProcResult)
  | upload (bucket objectPath contentType : String)
  | getPublicUrl (bucket objectPath : String)
deriving DecidableEq, Repr

def Event.isRun : Event → Bool
  | .run .. => true
  | _ => false

def Event.isUpload : Event → Bool
  | .upload .. => true
  | _ => false

def Event.isGetUrl : Event → Bool
  | .getPublicUrl .. => true
  | _ => false

/-- The publish steps: the storage upload and the public-URL resolution. -/
def Event.isPublish (e : Event) : Bool := e.isUpload || e.isGetUrl

/-- A Python exception as the orchestrator observes it: either a FastAPI
HTTPException, whose str() is the status code, a colon-space, and the detail
(per Starlette), or any other exception observed through its message str(e). -/
inductive PyExn where
  | http (status : Nat) (detail : String)
  | generic (msg : String)
deriving DecidableEq, Repr

def PyExn.str : PyExn → String
  | .http s d => Nat.repr s ++ ": " ++ d
  | .generic m => m

/-- Python: a or b, for strings (the empty string is falsy). -/
def pyOr (a b : String) : String := if a = "" then b else a

/-- Request body schema (pydantic): two required str fields and no further
validation. -/
structure ImageProcessRequest where
  rgb_image_path : String
  nir_image_path : String
deriving DecidableEq, Repr

/-- Body validation for ImageProcessRequest as pydantic performs it: a missing
field rejects the request with a validation error; any provided string value,
the empty string included, is accepted verbatim. -/
def parseRequest (rgb nir : Option String) : Except String ImageProcessRequest :=
  match rgb, nir with
  | some r, some n => Except.ok ⟨r, n⟩
  | none, _ => Except.error "field required: rgb_image_path"
  | some _, none => Except.error "field required: nir_image_path"

/-- Outcome of one supabase.storage.download call: the call may raise, return
None, or return bytes. -/
inductive DlOutcome where
  | raiseExn (msg : String)
  | ret (data : Option (List Nat))
deriving DecidableEq, Repr

/-- The download produced usable bytes (f.write(res) succeeds). -/
def DlOutcome.isData : DlOutcome → Bool
  | .ret (some _) => true
  | _ => false

/-- Outcome of the storage upload call. -/
inductive UpOutcome where
  | raiseExn (msg : String)
  | ok
deriving DecidableEq, Repr

/-- All external nondeterminism one generate_map request can observe. -/
structure Env where
  cwd : String
  jobId : String
  rgbPath : String
  nirPath : String
  dl : String → DlOutcome
  proc : ProcResult
  writesOutput : Bool
  up : UpOutcome
  getUrl : String → Except String String

def BUCKET_NAME : String := "vegetation-maps"

/-- temp_dir = os.path.join(os.getcwd(), "temp_" + job_id). -/
def workspace_path (cwd jobId : String) : String := joinPath cwd ("temp_" ++ jobId)

/-- The single-quote character, as a string. -/
def sq : String := String.singleton (Char.ofNat 39)

/-- The MATLAB command line, exactly as the f-string of the source builds it. -/
def matlab_command (project rgb nir out : String) : String :=
  "matlab -batch \"cd " ++ sq ++ project ++ sq ++ "; runner(" ++ sq ++ rgb ++ sq
    ++ ", " ++ sq ++ nir ++ sq ++ ", " ++ sq ++ out ++ sq ++ ")\""

/-- local_rgb_path of generate_map. -/
def input_rgb_local (cwd jobId : String) : String :=
  joinPath (workspace_path cwd jobId) "input_rgb.png"

/-- local_nir_path of generate_map. -/
def input_nir_local (cwd jobId : String) : String :=
  joinPath (workspace_path cwd jobId) "input_nir.png"

/-- output_filename of generate_map. -/
def output_filename (jobId : String) : String := "stress_map_" ++ jobId ++ ".png"

/-- local_output_path of generate_map. -/
def output_local (cwd jobId : String) : String :=
  joinPath (workspace_path cwd jobId) (output_filename jobId)

/-- output_storage_path of generate_map. -/
def output_storage_path (jobId : String) : String :=
  "outputs/" ++ output_filename jobId

/-- Message of the TypeError Python raises when f.write receives None. -/
def bytesTypeErr : String := "a bytes-like object is required, not NoneType"

/-- Success body of generate_map. -/
structure RemoteOk where
  message : String
  output_url : String
deriving DecidableEq, Repr

structure RunResult where
  response : Except PyExn RemoteOk
  fs : FS
  events : List Event

/-- The body of the try block of generate_map (steps A to D): the value
returned or the exception raised, with the filesystem and the call trace.
Opening a file in wb+ mode creates it, so each input file exists from the
moment its download starts. -/
def tryBody (env : Env) (fs : FS) : Except PyExn RemoteOk × FS × List Event :=
  let localRgb := input_rgb_local env.cwd env.jobId
  let localNir := input_nir_local env.cwd env.jobId
  let fs1 := localRgb :: fs
  let ev1 := [Event.download BUCKET_NAME env.rgbPath localRgb]
  match env.dl env.rgbPath with
  | .raiseExn m => (Except.error (.generic m), fs1, ev1)
  | .ret none => (Except.error (.generic bytesTypeErr), fs1, ev1)
  | .ret (some _) =>
    let fs2 := localNir :: fs1
    let ev2 := ev1 ++ [Event.download BUCKET_NAME env.nirPath localNir]
    match env.dl env.nirPath with
    | .raiseExn m => (Except.error (.generic m), fs2, ev2)
    | .ret none => (Except.error (.generic bytesTypeErr), fs2, ev2)
    | .ret (some _) =>
      let localOut := output_local env.cwd env.jobId
      let cmd := matlab_command env.cwd (absPath env.cwd localRgb)
        (absPath env.cwd localNir) (absPath env.cwd localOut)
      let ev3 := ev2 ++ [Event.run env.cwd cmd env.proc]
      if env.proc.returncode ≠ 0 then
        (Except.error (.http 500 ("MATLAB execution failed: "
          ++ pyOr env.proc.stderr env.proc.stdout)), fs2, ev3)
      else
        let fs3 := if env.writesOutput then localOut :: fs2 else fs2
        if pathExists fs3 localOut then
          let ev4 := ev3 ++ [Event.upload BUCKET_NAME (output_storage_path env.jobId) "image/png"]
          match env.up with
          | .raiseExn m => (Except.error (.generic m), fs3, ev4)
          | .ok =>
            let ev5 := ev4 ++ [Event.getPublicUrl BUCKET_NAME (output_storage_path env.jobId)]
            match env.getUrl (output_storage_path env.jobId) with
            | .error m => (Except.error (.generic m), fs3, ev5)
            | .ok url => (Except.ok ⟨"Stress map generated successfully!", url⟩, fs3, ev5)
        else
          (Except.error (.generic ("No such file or directory: " ++ localOut)), fs3, ev3)

/-- POST /generate-stress-map/ : makedirs(temp_dir), the try body, the except
clause turning any exception e into HTTPException(500, str(e)), and the
finally clause removing the workspace. -/
def generate_map (env : Env) (fs0 : FS) : RunResult :=
  let tdir := workspace_path env.cwd env.jobId
  let t := tryBody env (makedirs fs0 tdir)
  { response :=
      match t.1 with
      | Except.ok v => Except.ok v
      | Except.error e => Except.error (.http 500 e.str)
    fs := cleanup t.2.1 tdir
    events := t.2.2 }

/-- Success body of process_local_images. -/
structure LocalOk where
  message : String
  output_saved_to : String
deriving DecidableEq, Repr

structure LocalResult where
  response : Except PyExn LocalOk
  fs : FS
  events : List Event

def fixture_rgb (cwd : String) : String :=
  absPath cwd (joinPath (joinPath cwd "local_test_data") "test_rgb.jpg")

def fixture_nir (cwd : String) : String :=
  absPath cwd (joinPath (joinPath cwd "local_test_data") "test_nir.jpg")

def local_output_dir (cwd : String) : String := joinPath cwd "local_outputs"

def local_output_path (cwd jobId : String) : String :=
  absPath cwd (joinPath (local_output_dir cwd) ("local_map_" ++ jobId ++ ".png"))

/-- The 404 detail of process_local_images, verbatim. -/
def missing_fixtures_detail : String :=
  "Test files not found. Make sure " ++ sq ++ "test_rgb.jpg" ++ sq ++ " and "
    ++ sq ++ "test_nir.jpg" ++ sq ++ " are in the " ++ sq ++ "local_test_data"
    ++ sq ++ " folder."

/-- Environment of one process_local_images request. -/
structure LocalEnv where
  cwd : String
  jobId : String
  proc : ProcResult

/-- The try block of process_local_images: run MATLAB, raise on non-zero exit,
else return the success body. -/
def local_tryBody (env : LocalEnv) : Except PyExn LocalOk × List Event :=
  let outPath := local_output_path env.cwd env.jobId
  let cmd := matlab_command env.cwd (fixture_rgb env.cwd) (fixture_nir env.cwd) outPath
  let evs := [Event.run env.cwd cmd env.proc]
  if env.proc.returncode ≠ 0 then
    (Except.error (.http 500 ("MATLAB execution failed: "
      ++ pyOr env.proc.stderr env.proc.stdout)), evs)
  else
    (Except.ok ⟨"Local processing successful!", outPath⟩, evs)

/-- POST /process-local-images/ : makedirs(local_outputs), the fixture
existence check raising 404 before anything runs, then the try block with the
except clause turning any exception e into HTTPException(500, str(e)). -/
def process_local_images (env : LocalEnv) (fs0 : FS) : LocalResult :=
  let fs := makedirs fs0 (local_output_dir env.cwd)
  if !pathExists fs (fixture_rgb env.cwd) || !pathExists fs (fixture_nir env.cwd) then
    { response := Except.error (.http 404 missing_fixtures_detail), fs := fs, events := [] }
  else
    let t := local_tryBody env
    { response :=
        match t.1 with
        | Except.ok v => Except.ok v
        | Except.error e => Except.error (.http 500 e.str)
      fs := fs
      events := t.2 }

/-- Occurrence of a character list inside another. -/
def listInfix : List Char → List Char → Bool
  | a, [] => a.isEmpty
  | a, c :: t => a.isPrefixOf (c :: t) || listInfix a t

/-- Whether sub occurs inside s. -/
def containsSub (s sub : String) : Bool := listInfix sub.data s.data

/-- A concrete remote environment whose first storage download raises. -/
def envDlFail : Env :=
  { cwd := "/srv", jobId := "J", rgbPath := "in/r.png", nirPath := "in/n.png",
    dl := fun _ => DlOutcome.raiseExn "connection reset",
    proc := { returncode := 0, stdout := "", stderr := "" },
    writesOutput := false, up := UpOutcome.ok,
    getUrl := fun p => Except.ok p }

/-- A concrete local environment. -/
def lenvEx : LocalEnv :=
  { cwd := "/srv", jobId := "J", proc := { returncode := 0, stdout := "", stderr := "" } }

/-- A concrete remote environment whose computation exits non-zero with
error output on stderr. -/
def envC2 : Env :=
  { cwd := "/srv", jobId := "J", rgbPath := "in/r.png", nirPath := "in/n.png",
    dl := fun _ => DlOutcome.ret (some [1]),
    proc := { returncode := 1, stdout := "out text", stderr := "boom" },
    writesOutput := false, up := UpOutcome.ok, getUrl := fun p => Except.ok p }

/-- A concrete local environment whose computation exits non-zero. -/
def lenvFail : LocalEnv :=
  { cwd := "/srv", jobId := "K", proc := { returncode := 1, stdout := "so", stderr := "se" } }

/-- A concrete filesystem holding both local fixtures. -/
def fsLocal : FS := [fixture_rgb "/srv", fixture_nir "/srv"]

/-- A concrete remote environment where every step succeeds. -/
def envOk : Env :=
  { cwd := "/srv", jobId := "J", rgbPath := "in/r.png", nirPath := "in/n.png",
    dl := fun _ => DlOutcome.ret (some [7]),
    proc := { returncode := 0, stdout := "", stderr := "" },
    writesOutput := true, up := UpOutcome.ok,
    getUrl := fun p => Except.ok ("https://pub/" ++ p) }

/-- A concrete remote environment whose request carries an empty rgb
identifier. -/
def envC7 : Env :=
  { cwd := "/srv", jobId := "J", rgbPath := "", nirPath := "n.png",
    dl := fun _ => DlOutcome.raiseExn "object not found",
    proc := { returncode := 0, stdout := "", stderr := "" },
    writesOutput := false, up := UpOutcome.ok, getUrl := fun p => Except.ok p }

/-! Helper lemmas about strings, paths and the filesystem model. -/

theorem strDataAppend (a b : String) : (a ++ b).data = a.data ++ b.data := by
  cases a; cases b; rfl

theorem strExt (a b : String) (h : a.data = b.data) : a = b := by
  cases a; cases b; exact congrArg String.mk h

theorem strLenAppend (a b : String) : (a ++ b).length = a.length + b.length := by
  show (a ++ b).data.length = a.data.length + b.data.length
  rw [strDataAppend, List.length_append]

theorem strCancelLeft (a b c : String) (h : a ++ b = a ++ c) : b = c := by
  have hd := congrArg String.data h
  rw [strDataAppend, strDataAppend] at hd
  exact strExt _ _ (List.append_cancel_left hd)

theorem strAssoc (a b c : String) : a ++ b ++ c = a ++ (b ++ c) := by
  apply strExt
  rw [strDataAppend, strDataAppend, strDataAppend, strDataAppend, List.append_assoc]

theorem pathExists_rmtree_self (fs : FS) (d : String) :
    pathExists (rmtree fs d) d = false := by
  simp [pathExists, rmtree, List.mem_filter]

theorem cleanup_of_absent (fs : FS) (d : String) (h : pathExists fs d = false) :
    cleanup fs d = fs := by
  simp [cleanup, h]

theorem pathExists_cleanup_self (fs : FS) (d : String) :
    pathExists (cleanup fs d) d = false := by
  unfold cleanup
  split
  · exact pathExists_rmtree_self fs d
  · rename_i h
    simpa using h

theorem pathExists_makedirs_of_ne (fs : FS) (d p : String) (h : p ≠ d) :
    pathExists (makedirs fs d) p = pathExists fs p := by
  unfold makedirs
  split
  · rfl
  · simp [pathExists, List.mem_cons, h]

theorem pathExists_makedirs_mono (fs : FS) (d p : String) (h : pathExists fs p = true) :
    pathExists (makedirs fs d) p = true := by
  unfold makedirs
  split
  · exact h
  · simp [pathExists] at h ⊢
    exact Or.inr h

/-! The claims. -/

/-- C1: on every exit path of generate_map — normal completion, a download
failure, a non-zero compute exit, an upload or URL-resolution failure, or any
other modelled exception — the workspace directory temp_{job_id} does not
exist after the pipeline finishes: the cleanup of the finally block runs
unconditionally after success and failure alike. -/
theorem c1_workspace_always_removed (env : Env) (fs0 : FS) :
    pathExists (generate_map env fs0).fs (workspace_path env.cwd env.jobId) = false := by
  exact pathExists_cleanup_self _ _

/-- C5: jobs with distinct job identifiers get distinct workspace paths — the
workspace-path function is injective in the job identifier, so no two jobs
share a workspace. -/
theorem c5_workspace_paths_distinct (cwd j1 j2 : String) (h : j1 ≠ j2) :
    workspace_path cwd j1 ≠ workspace_path cwd j2 := by
  intro he
  apply h
  unfold workspace_path joinPath at he
  exact strCancelLeft _ _ _ (strCancelLeft _ _ _ he)

/-- Witness for C5 at concrete distinct job identifiers. -/
theorem c5_workspace_paths_distinct_witness :
    workspace_path "/srv" "a" ≠ workspace_path "/srv" "b" :=
  c5_workspace_paths_distinct "/srv" "a" "b" (by decide)

/-- C8: workspace destruction is idempotent and is the identity (raising
nothing) on an absent directory, and after it runs the directory is gone. -/
theorem c8_cleanup_idempotent (fs : FS) (d : String) :
    (pathExists fs d = false → cleanup fs d = fs)
    ∧ cleanup (cleanup fs d) d = cleanup fs d
    ∧ pathExists (cleanup fs d) d = false := by
  refine ⟨cleanup_of_absent fs d, ?_, pathExists_cleanup_self fs d⟩
  exact cleanup_of_absent _ _ (pathExists_cleanup_self fs d)

/-- Witness for C8 on a concrete filesystem where the directory is absent. -/
theorem c8_cleanup_idempotent_witness :
    cleanup ["/srv/a"] "/srv/b" = ["/srv/a"]
    ∧ cleanup (cleanup ["/srv/a"] "/srv/b") "/srv/b" = cleanup ["/srv/a"] "/srv/b"
    ∧ pathExists (cleanup ["/srv/a"] "/srv/b") "/srv/b" = false :=
  ⟨(c8_cleanup_idempotent ["/srv/a"] "/srv/b").1 (by decide),
   (c8_cleanup_idempotent ["/srv/a"] "/srv/b").2.1,
   (c8_cleanup_idempotent ["/srv/a"] "/srv/b").2.2⟩

theorem fixture_rgb_ne_outdir (cwd : String) : fixture_rgb cwd ≠ local_output_dir cwd := by
  unfold fixture_rgb local_output_dir absPath
  split <;>
  · intro h
    have hl := congrArg String.length h
    simp only [joinPath, strLenAppend] at hl
    have e1 : ("local_test_data" : String).length = 15 := rfl
    have e2 : ("test_rgb.jpg" : String).length = 12 := rfl
    have e3 : ("local_outputs" : String).length = 13 := rfl
    have e4 : ("/" : String).length = 1 := rfl
    rw [e1, e2, e3, e4] at hl
    omega

theorem fixture_nir_ne_outdir (cwd : String) : fixture_nir cwd ≠ local_output_dir cwd := by
  unfold fixture_nir local_output_dir absPath
  split <;>
  · intro h
    have hl := congrArg String.length h
    simp only [joinPath, strLenAppend] at hl
    have e1 : ("local_test_data" : String).length = 15 := rfl
    have e2 : ("test_nir.jpg" : String).length = 12 := rfl
    have e3 : ("local_outputs" : String).length = 13 := rfl
    have e4 : ("/" : String).length = 1 := rfl
    rw [e1, e2, e3, e4] at hl
    omega

/-- C3: if the storage download of either input raises or returns no data, the
job fails with an error response carrying the transfer diagnostic, no
computation invocation occurs, and the workspace is still removed. -/
theorem c3_download_failure (env : Env) (fs0 : FS)
    (h : ¬((env.dl env.rgbPath).isData = true ∧ (env.dl env.nirPath).isData = true)) :
    (∃ m, (generate_map env fs0).response = Except.error (PyExn.http 500 m))
    ∧ ((generate_map env fs0).events.all fun e => !e.isRun) = true
    ∧ pathExists (generate_map env fs0).fs (workspace_path env.cwd env.jobId) = false := by
  cases h1 : env.dl env.rgbPath with
  | raiseExn m =>
    refine ⟨⟨m, ?_⟩, ?_, pathExists_cleanup_self _ _⟩
    · simp [generate_map, tryBody, h1, PyExn.str]
    · simp [generate_map, tryBody, h1, Event.isRun]
  | ret d =>
    cases d with
    | none =>
      refine ⟨⟨bytesTypeErr, ?_⟩, ?_, pathExists_cleanup_self _ _⟩
      · simp [generate_map, tryBody, h1, PyExn.str]
      · simp [generate_map, tryBody, h1, Event.isRun]
    | some bs =>
      have h2 : ¬((env.dl env.nirPath).isData = true) := fun hnir =>
        h ⟨by simp [h1, DlOutcome.isData], hnir⟩
      cases h3 : env.dl env.nirPath with
      | raiseExn m =>
        refine ⟨⟨m, ?_⟩, ?_, pathExists_cleanup_self _ _⟩
        · simp [generate_map, tryBody, h1, h3, PyExn.str]
        · simp [generate_map, tryBody, h1, h3, Event.isRun]
      | ret d2 =>
        cases d2 with
        | none =>
          refine ⟨⟨bytesTypeErr, ?_⟩, ?_, pathExists_cleanup_self _ _⟩
          · simp [generate_map, tryBody, h1, h3, PyExn.str]
          · simp [generate_map, tryBody, h1, h3, Event.isRun]
        | some bs2 => exact absurd (by simp [h3, DlOutcome.isData]) h2

/-- Witness for C3: a concrete run whose first download raises. -/
theorem c3_download_failure_witness :
    (∃ m, (generate_map envDlFail []).response = Except.error (PyExn.http 500 m))
    ∧ ((generate_map envDlFail []).events.all fun e => !e.isRun) = true
    ∧ pathExists (generate_map envDlFail []).fs
        (workspace_path envDlFail.cwd envDlFail.jobId) = false :=
  c3_download_failure envDlFail [] (by decide)

/-- C4: in local mode, if either expected fixture file is absent the pipeline
responds with the 404 diagnostic that names both expected files, and performs
no computation invocation (no external call at all). -/
theorem c4_missing_fixture (env : LocalEnv) (fs0 : FS)
    (h : pathExists fs0 (fixture_rgb env.cwd) = false
       ∨ pathExists fs0 (fixture_nir env.cwd) = false) :
    (process_local_images env fs0).response = Except.error (PyExn.http 404 missing_fixtures_detail)
    ∧ (process_local_images env fs0).events = []
    ∧ containsSub missing_fixtures_detail "test_rgb.jpg" = true
    ∧ containsSub missing_fixtures_detail "test_nir.jpg" = true := by
  have hr := pathExists_makedirs_of_ne fs0 (local_output_dir env.cwd) (fixture_rgb env.cwd)
    (fixture_rgb_ne_outdir env.cwd)
  have hn := pathExists_makedirs_of_ne fs0 (local_output_dir env.cwd) (fixture_nir env.cwd)
    (fixture_nir_ne_outdir env.cwd)
  refine ⟨?_, ?_, by decide, by decide⟩ <;>
  · rcases h with h | h
    · simp [process_local_images, hr, h]
    · simp [process_local_images, hn, h]

/-- Witness for C4: an empty filesystem, where both fixtures are absent. -/
theorem c4_missing_fixture_witness :
    (process_local_images lenvEx []).response = Except.error (PyExn.http 404 missing_fixtures_detail)
    ∧ (process_local_images lenvEx []).events = []
    ∧ containsSub missing_fixtures_detail "test_rgb.jpg" = true
    ∧ containsSub missing_fixtures_detail "test_nir.jpg" = true :=
  c4_missing_fixture lenvEx [] (Or.inl (by decide))

theorem wrap500 (m : String) : PyExn.str (PyExn.http 500 m) = "500: " ++ m := by
  simp only [PyExn.str]
  have e0 : (Nat.repr 500 ++ ": " : String) = "500: " := rfl
  rw [e0]

theorem wrap_matlab (m : String) :
    PyExn.str (PyExn.http 500 ("MATLAB execution failed: " ++ m))
      = "500: MATLAB execution failed: " ++ m := by
  rw [wrap500, ← strAssoc]
  have e1 : ("500: " ++ "MATLAB execution failed: " : String)
      = "500: MATLAB execution failed: " := rfl
  rw [e1]

/-- C2 counterexample: with a non-zero exit and stderr "boom", the failure
response's message is not the captured stderr itself — the orchestrator
prefixes the fixed text and its uniform re-wrap prefixes the status code. -/
theorem c2_counterexample :
    (generate_map envC2 []).response
      = Except.error (PyExn.http 500 "500: MATLAB execution failed: boom")
    ∧ ("500: MATLAB execution failed: boom" : String) ≠ "boom"
    ∧ envC2.proc.stderr = "boom" :=
  ⟨rfl, by decide, rfl⟩

/-- C2 amended: on a non-zero compute exit, the pipeline fails with the
uniform 500 response whose message embeds the captured stderr when non-empty
and the captured stdout otherwise, after the fixed prefix, and no upload or
publish step is attempted; in both the remote and the local pipeline. -/
theorem c2_amended_compute_failure :
    (∀ (env : Env) (fs0 : FS),
        (env.dl env.rgbPath).isData = true → (env.dl env.nirPath).isData = true →
        env.proc.returncode ≠ 0 →
        (generate_map env fs0).response
          = Except.error (PyExn.http 500 ("500: MATLAB execution failed: "
              ++ (if env.proc.stderr = "" then env.proc.stdout else env.proc.stderr)))
        ∧ ((generate_map env fs0).events.all fun e => !e.isPublish) = true)
    ∧ (∀ (env : LocalEnv) (fs0 : FS),
        pathExists fs0 (fixture_rgb env.cwd) = true →
        pathExists fs0 (fixture_nir env.cwd) = true →
        env.proc.returncode ≠ 0 →
        (process_local_images env fs0).response
          = Except.error (PyExn.http 500 ("500: MATLAB execution failed: "
              ++ (if env.proc.stderr = "" then env.proc.stdout else env.proc.stderr)))
        ∧ ((process_local_images env fs0).events.all fun e => !e.isPublish) = true) := by
  constructor
  · intro env fs0 h1 h2 h3
    cases hd1 : env.dl env.rgbPath with
    | raiseExn m => rw [hd1] at h1; simp [DlOutcome.isData] at h1
    | ret d =>
      cases d with
      | none => rw [hd1] at h1; simp [DlOutcome.isData] at h1
      | some b1 =>
        cases hd2 : env.dl env.nirPath with
        | raiseExn m => rw [hd2] at h2; simp [DlOutcome.isData] at h2
        | ret d2 =>
          cases d2 with
          | none => rw [hd2] at h2; simp [DlOutcome.isData] at h2
          | some b2 =>
            constructor
            · simp [generate_map, tryBody, hd1, hd2, h3, wrap_matlab, pyOr]
            · simp [generate_map, tryBody, hd1, hd2, h3,
                Event.isPublish, Event.isUpload, Event.isGetUrl]
  · intro env fs0 h1 h2 h3
    have hr := pathExists_makedirs_mono fs0 (local_output_dir env.cwd) _ h1
    have hn := pathExists_makedirs_mono fs0 (local_output_dir env.cwd) _ h2
    constructor
    · simp [process_local_images, hr, hn, local_tryBody, h3, wrap_matlab, pyOr]
    · simp [process_local_images, hr, hn, local_tryBody, h3,
        Event.isPublish, Event.isUpload, Event.isGetUrl]

/-- Witness for C2 amended: concrete non-zero exits in both pipelines. -/
theorem c2_amended_compute_failure_witness :
    (generate_map envC2 []).response
      = Except.error (PyExn.http 500 ("500: MATLAB execution failed: "
          ++ (if envC2.proc.stderr = "" then envC2.proc.stdout else envC2.proc.stderr)))
    ∧ (process_local_images lenvFail fsLocal).response
      = Except.error (PyExn.http 500 ("500: MATLAB execution failed: "
          ++ (if lenvFail.proc.stderr = "" then lenvFail.proc.stdout else lenvFail.proc.stderr))) :=
  ⟨(c2_amended_compute_failure.1 envC2 [] (by decide) (by decide) (by decide)).1,
   (c2_amended_compute_failure.2 lenvFail fsLocal (by decide) (by decide) (by decide)).1⟩

/-- C9: in local mode, publishing is a no-op — on a successful computation
the pipeline returns the output artifact's local path unchanged (the very
path handed to the computation as its output argument) in a response of shape
message and output_saved_to, and no upload or URL-resolution call is made. -/
theorem c9_local_publish_noop (env : LocalEnv) (fs0 : FS)
    (h1 : pathExists fs0 (fixture_rgb env.cwd) = true)
    (h2 : pathExists fs0 (fixture_nir env.cwd) = true)
    (h0 : env.proc.returncode = 0) :
    (process_local_images env fs0).response
      = Except.ok { message := "Local processing successful!",
                    output_saved_to := local_output_path env.cwd env.jobId }
    ∧ (process_local_images env fs0).events
      = [Event.run env.cwd (matlab_command env.cwd (fixture_rgb env.cwd) (fixture_nir env.cwd)
          (local_output_path env.cwd env.jobId)) env.proc]
    ∧ ((process_local_images env fs0).events.all fun e => !e.isPublish) = true := by
  have hr := pathExists_makedirs_mono fs0 (local_output_dir env.cwd) _ h1
  have hn := pathExists_makedirs_mono fs0 (local_output_dir env.cwd) _ h2
  refine ⟨?_, ?_, ?_⟩ <;>
    simp [process_local_images, hr, hn, local_tryBody, h0,
      Event.isPublish, Event.isUpload, Event.isGetUrl]

/-- Witness for C9: a concrete successful local run over fsLocal. -/
theorem c9_local_publish_noop_witness :
    (process_local_images lenvEx fsLocal).response
      = Except.ok { message := "Local processing successful!",
                    output_saved_to := local_output_path lenvEx.cwd lenvEx.jobId }
    ∧ (process_local_images lenvEx fsLocal).events
      = [Event.run lenvEx.cwd (matlab_command lenvEx.cwd (fixture_rgb lenvEx.cwd)
          (fixture_nir lenvEx.cwd) (local_output_path lenvEx.cwd lenvEx.jobId)) lenvEx.proc]
    ∧ ((process_local_images lenvEx fsLocal).events.all fun e => !e.isPublish) = true :=
  c9_local_publish_noop lenvEx fsLocal (by decide) (by decide) (by decide)

theorem isAbs_append (a b : String) (h : isAbs a = true) : isAbs (a ++ b) = true := by
  unfold isAbs at h ⊢
  rw [strDataAppend]
  cases hd : a.data with
  | nil => rw [hd] at h; simp at h
  | cons c t => rw [hd] at h; simpa using h

theorem isAbs_joinPath (a b : String) (h : isAbs a = true) : isAbs (joinPath a b) = true := by
  unfold joinPath
  exact isAbs_append _ _ (isAbs_append _ _ h)

theorem isAbs_absPath (cwd p : String) (h : isAbs p = true) : isAbs (absPath cwd p) = true := by
  unfold absPath
  rw [h]
  exact h

theorem tryBody_run_le_one (env : Env) (fs : FS) :
    ((tryBody env fs).2.2.filter Event.isRun).length ≤ 1 := by
  simp only [tryBody]
  repeat' split
  all_goals simp [Event.isRun]

theorem tryBody_run_events_of_ok (env : Env) (fs : FS)
    (h1 : (env.dl env.rgbPath).isData = true) (h2 : (env.dl env.nirPath).isData = true) :
    (tryBody env fs).2.2.filter Event.isRun
      = [Event.run env.cwd (matlab_command env.cwd
          (absPath env.cwd (input_rgb_local env.cwd env.jobId))
          (absPath env.cwd (input_nir_local env.cwd env.jobId))
          (absPath env.cwd (output_local env.cwd env.jobId))) env.proc] := by
  cases hd1 : env.dl env.rgbPath with
  | raiseExn m => rw [hd1] at h1; simp [DlOutcome.isData] at h1
  | ret d =>
    cases d with
    | none => rw [hd1] at h1; simp [DlOutcome.isData] at h1
    | some b1 =>
      cases hd2 : env.dl env.nirPath with
      | raiseExn m => rw [hd2] at h2; simp [DlOutcome.isData] at h2
      | ret d2 =>
        cases d2 with
        | none => rw [hd2] at h2; simp [DlOutcome.isData] at h2
        | some b2 =>
          simp only [tryBody, hd1, hd2]
          repeat' split
          all_goals simp [Event.isRun]

theorem tryBody_ok_shape (env : Env) (fs : FS) (v : RemoteOk)
    (h : (tryBody env fs).1 = Except.ok v) :
    v.message = "Stress map generated successfully!"
    ∧ env.getUrl (output_storage_path env.jobId) = Except.ok v.output_url := by
  simp only [tryBody] at h
  repeat' split at h
  all_goals simp_all
  all_goals subst h
  all_goals exact ⟨rfl, rfl⟩

theorem tryBody_events_cons (env : Env) (fs : FS) :
    ∃ rest, (tryBody env fs).2.2
      = Event.download BUCKET_NAME env.rgbPath (input_rgb_local env.cwd env.jobId) :: rest := by
  simp only [tryBody]
  repeat' split
  all_goals exact ⟨_, rfl⟩

/-- C6 counterexample: a request whose first download fails performs no
computation invocation at all, so the computation is not invoked exactly once
for every request. -/
theorem c6_counterexample :
    ¬(((generate_map envDlFail []).events.filter Event.isRun).length = 1) := by decide

/-- C6 amended: the external computation is invoked at most once per request;
whenever both inputs materialize (and, in local mode, whenever both fixtures
exist) it is invoked exactly once, as a separate process run from the project
root whose command line carries exactly the three paths — RGB input, NIR
input, output destination, in that order — each absolute whenever the working
directory is absolute, with stdout, stderr and the exit status captured. -/
theorem c6_amended_single_invocation :
    (∀ (env : Env) (fs0 : FS),
        (((generate_map env fs0).events.filter Event.isRun).length ≤ 1)
        ∧ ((env.dl env.rgbPath).isData = true → (env.dl env.nirPath).isData = true →
            (generate_map env fs0).events.filter Event.isRun
              = [Event.run env.cwd (matlab_command env.cwd
                  (absPath env.cwd (input_rgb_local env.cwd env.jobId))
                  (absPath env.cwd (input_nir_local env.cwd env.jobId))
                  (absPath env.cwd (output_local env.cwd env.jobId))) env.proc])
        ∧ (isAbs env.cwd = true →
            isAbs (absPath env.cwd (input_rgb_local env.cwd env.jobId)) = true
            ∧ isAbs (absPath env.cwd (input_nir_local env.cwd env.jobId)) = true
            ∧ isAbs (absPath env.cwd (output_local env.cwd env.jobId)) = true))
    ∧ (∀ (env : LocalEnv) (fs0 : FS),
        ((process_local_images env fs0).events.filter Event.isRun).length ≤ 1
        ∧ (pathExists fs0 (fixture_rgb env.cwd) = true →
           pathExists fs0 (fixture_nir env.cwd) = true →
           (process_local_images env fs0).events.filter Event.isRun
             = [Event.run env.cwd (matlab_command env.cwd (fixture_rgb env.cwd)
                 (fixture_nir env.cwd) (local_output_path env.cwd env.jobId)) env.proc])) := by
  constructor
  · intro env fs0
    refine ⟨tryBody_run_le_one env _, fun h1 h2 => tryBody_run_events_of_ok env _ h1 h2,
      fun hc => ?_⟩
    unfold input_rgb_local input_nir_local output_local workspace_path
    exact ⟨isAbs_absPath _ _ (isAbs_joinPath _ _ (isAbs_joinPath _ _ hc)),
      isAbs_absPath _ _ (isAbs_joinPath _ _ (isAbs_joinPath _ _ hc)),
      isAbs_absPath _ _ (isAbs_joinPath _ _ (isAbs_joinPath _ _ hc))⟩
  · intro env fs0
    constructor
    · simp only [process_local_images, local_tryBody]
      repeat' split
      all_goals simp [Event.isRun]
    · intro h1 h2
      have hr := pathExists_makedirs_mono fs0 (local_output_dir env.cwd) _ h1
      have hn := pathExists_makedirs_mono fs0 (local_output_dir env.cwd) _ h2
      by_cases h0 : env.proc.returncode = 0 <;>
        simp [process_local_images, hr, hn, local_tryBody, h0, Event.isRun]

/-- Witness for C6 amended: a concrete all-success run has exactly one
computation invocation with the three workspace paths, and the RGB argument
is absolute. -/
theorem c6_amended_single_invocation_witness :
    (generate_map envOk []).events.filter Event.isRun
      = [Event.run envOk.cwd (matlab_command envOk.cwd
          (absPath envOk.cwd (input_rgb_local envOk.cwd envOk.jobId))
          (absPath envOk.cwd (input_nir_local envOk.cwd envOk.jobId))
          (absPath envOk.cwd (output_local envOk.cwd envOk.jobId))) envOk.proc]
    ∧ isAbs (absPath envOk.cwd (input_rgb_local envOk.cwd envOk.jobId)) = true :=
  ⟨(c6_amended_single_invocation.1 envOk []).2.1 (by decide) (by decide),
   ((c6_amended_single_invocation.1 envOk []).2.2 (by decide)).1⟩

/-- C7 counterexample: an empty rgb identifier passes the request schema and
the job is processed — the pipeline runs and calls the storage download with
the empty object path. -/
theorem c7_counterexample :
    parseRequest (some "") (some "n.png")
      = Except.ok { rgb_image_path := "", nir_image_path := "n.png" }
    ∧ (generate_map envC7 []).events
      = [Event.download BUCKET_NAME "" (input_rgb_local "/srv" "J")] :=
  ⟨rfl, rfl⟩

/-- C7 amended: both image identifiers are required — a request missing
either field is rejected by schema validation — but emptiness is not checked:
any provided string, the empty string included, is accepted verbatim and the
job pipeline starts with a download of exactly that identifier. -/
theorem c7_amended_required_fields :
    (∀ nir : Option String, (parseRequest none nir).isOk = false)
    ∧ (∀ rgb : String, (parseRequest (some rgb) none).isOk = false)
    ∧ (∀ rgb nir : String, parseRequest (some rgb) (some nir)
        = Except.ok { rgb_image_path := rgb, nir_image_path := nir })
    ∧ (∀ (env : Env) (fs0 : FS), ∃ rest, (generate_map env fs0).events
        = Event.download BUCKET_NAME env.rgbPath (input_rgb_local env.cwd env.jobId) :: rest) := by
  refine ⟨fun nir => rfl, fun rgb => rfl, fun rgb nir => rfl, ?_⟩
  intro env fs0
  exact tryBody_events_cons env _

/-- C10: every storage upload the remote pipeline performs targets exactly
the object path outputs/stress_map_{job_id}.png in the bucket
vegetation-maps with content type image/png; every public-URL resolution asks
for exactly that path; and a success response carries the URL resolved for it
together with the fixed success message. -/
theorem c10_publish_destination (env : Env) (fs0 : FS) :
    (∀ e ∈ (generate_map env fs0).events, e.isUpload = true →
        e = Event.upload BUCKET_NAME (output_storage_path env.jobId) "image/png")
    ∧ (∀ e ∈ (generate_map env fs0).events, e.isGetUrl = true →
        e = Event.getPublicUrl BUCKET_NAME (output_storage_path env.jobId))
    ∧ (∀ (u m : String), (generate_map env fs0).response = Except.ok ⟨m, u⟩ →
        m = "Stress map generated successfully!"
        ∧ env.getUrl (output_storage_path env.jobId) = Except.ok u) := by
  refine ⟨?_, ?_, ?_⟩
  · simp only [generate_map, tryBody]
    repeat' split
    all_goals simp [Event.isUpload]
  · simp only [generate_map, tryBody]
    repeat' split
    all_goals simp [Event.isGetUrl]
  · intro u m h
    have h2 : (tryBody env (makedirs fs0 (workspace_path env.cwd env.jobId))).1
        = Except.ok ⟨m, u⟩ := by
      cases ht : (tryBody env (makedirs fs0 (workspace_path env.cwd env.jobId))).1 with
      | ok v =>
        have hv : (generate_map env fs0).response = Except.ok v := by
          simp [generate_map, ht]
        rw [hv] at h
        injection h with hvv
        rw [hvv]
      | error e =>
        have hv : (generate_map env fs0).response = Except.error (.http 500 e.str) := by
          simp [generate_map, ht]
        rw [hv] at h
        exact Except.noConfusion h
    have hshape := tryBody_ok_shape env _ ⟨m, u⟩ h2
    exact ⟨hshape.1, hshape.2⟩

/-- Witness for C10: the all-success run resolves the URL for exactly the
outputs path of its job. -/
theorem c10_publish_destination_witness :
    ("Stress map generated successfully!" : String) = "Stress map generated successfully!"
    ∧ envOk.getUrl (output_storage_path envOk.jobId)
        = Except.ok "https://pub/outputs/stress_map_J.png" :=
  (c10_publish_destination envOk []).2.2 "https://pub/outputs/stress_map_J.png"
    "Stress map generated successfully!" rfl

end FarmAI
